import Mathlib

/-!
# Verification of `src/sparkcontext.py` (Genesys forms exporter)

A shallow embedding of the data flow of `sparkcontext.py`:

* JSON values (`Val`) and Python dicts as insertion-ordered association
  lists (`Entity`), with Python's `dict.get`, `dict.pop`, `{**a, **b}`
  merge, `d[k] = v` assignment and truthiness.
* `GenesysProcessor.prefix_dict_keys`, `process_question_groups`,
  `process_entities`, `fetch_data`, `save_to_jsonl` and the `main`
  pipeline, with side effects (HTTP fetches, storage writes, raised
  exceptions, dict mutation) made explicit in the return values.

Modelling notes:
* String values carry their text; the embedded `json.dumps` renders
  without escape sequences (inputs under study contain no characters
  needing escapes), and numbers are integers.
* `requests.get` plus `response.raise_for_status()` is modelled on the
  final (post-redirect) response: `raise_for_status` raises exactly for
  status codes in 400..599; `response.json()` raises when the body is
  not JSON.  Both exceptions are `RequestException`s, re-raised by
  `fetch_data`.
* Iterating a non-list where the code expects a list, and calling dict
  methods on a non-dict, are modelled as acting on the empty list/dict.
-/

/-- A JSON value as decoded by `response.json()`. -/
inductive Val where
  | null : Val
  | bool (b : Bool) : Val
  | int (n : Int) : Val
  | str (s : String) : Val
  | arr (elems : List Val) : Val
  | obj (fields : List (String × Val)) : Val

/-- A Python dict with string keys: an insertion-ordered association list
(Python dicts preserve insertion order and have unique keys). -/
abbrev Entity := List (String × Val)

/-- The keys of a dict, in order. -/
def keysOf (d : Entity) : List String := d.map Prod.fst

/-- Python `d.get(k, dflt)`. -/
def dget (d : Entity) (k : String) (dflt : Val) : Val :=
  match d.find? (fun kv => kv.1 == k) with
  | some kv => kv.2
  | none => dflt

/-- Python `d.pop(k, dflt)`: the value (or the default when `k` is absent)
together with the dict after the removal. -/
def dpop (d : Entity) (k : String) (dflt : Val) : Val × Entity :=
  match d.find? (fun kv => kv.1 == k) with
  | some kv => (kv.2, d.eraseP (fun kv => kv.1 == k))
  | none => (dflt, d)

/-- Python `d[k] = v`: replace in place when `k` exists, else append. -/
def dinsert (d : Entity) (k : String) (v : Val) : Entity :=
  if d.any (fun kv => kv.1 == k) then
    d.map (fun kv => if kv.1 == k then (k, v) else kv)
  else d ++ [(k, v)]

/-- Python `{**a, **b}`: `a`'s keys in order with `b`'s overrides, then
`b`'s fresh keys in order. -/
def pyMerge (a b : Entity) : Entity :=
  (a.map (fun kv =>
    match b.find? (fun kv2 => kv2.1 == kv.1) with
    | some kv2 => (kv.1, kv2.2)
    | none => kv))
  ++ b.filter (fun kv2 => !(a.any (fun kv => kv.1 == kv2.1)))

/-- Python truthiness of a decoded JSON value (`if not published_versions`). -/
def pyTruthy : Val → Bool
  | .null => false
  | .bool b => b
  | .int n => n != 0
  | .str s => s != ""
  | .arr l => !l.isEmpty
  | .obj l => !l.isEmpty

/-- Reading a value where the code iterates a list (`for x in v`). -/
def Val.asList : Val → List Val
  | .arr l => l
  | _ => []

/-- Reading a value where the code uses dict methods (`v.get`, `v.pop`). -/
def Val.asObj : Val → Entity
  | .obj l => l
  | _ => []

/-- A JSON string literal (escape-free model). -/
def jstr (s : String) : String := "\"" ++ s ++ "\""

/-- Embedded `json.dumps` (default separators; escape-free model). -/
def Val.dumps : Val → String
  | .null => "null"
  | .bool b => if b then "true" else "false"
  | .int n => toString n
  | .str s => jstr s
  | .arr l => "[" ++ ", ".intercalate (l.attach.map (fun x => x.1.dumps)) ++ "]"
  | .obj l =>
      "\x7b" ++
        ", ".intercalate (l.attach.map (fun x => jstr x.1.1 ++ ": " ++ x.1.2.dumps))
      ++ "\x7d"
termination_by v => sizeOf v
decreasing_by
  · have h := List.sizeOf_lt_of_mem x.2
    simp only [Val.arr.sizeOf_spec]
    omega
  · obtain ⟨⟨k, v⟩, hm⟩ := x
    have h := List.sizeOf_lt_of_mem hm
    simp only [Prod.mk.sizeOf_spec] at h
    simp only [Val.obj.sizeOf_spec]
    omega

/-- `json.dumps` of a dict. -/
def dumpsEntity (d : Entity) : String := (Val.obj d).dumps

/-- `'\n'.join(json.dumps(item) for item in records)` (src line 138). -/
def jsonlOf (records : List Entity) : String :=
  "\n".intercalate (records.map dumpsEntity)

/-- Python `str(v)` as used by the f-string building the output filename
(ids are strings in practice; containers approximated by their JSON). -/
def pyStr : Val → String
  | .str s => s
  | .int n => toString n
  | .bool b => if b then "True" else "False"
  | .null => "None"
  | v => v.dumps

/-! ## `GenesysProcessor.prefix_dict_keys` and `process_question_groups`
(src/sparkcontext.py lines 93-140) -/

/-- `GenesysProcessor.prefix_dict_keys` (src line 95):
`{f"{p}_{k}": v for k, v in d.items()}`. -/
def prefix_dict_keys (d : Entity) (p : String) : Entity :=
  d.map (fun kv => (p ++ "_" ++ kv.1, kv.2))

/-- The `question_groups` list read at src line 99:
`form_entity.get('questionGroups', [])`. -/
def qgListOf (form_entity : Entity) : List Val :=
  (dget form_entity "questionGroups" (Val.arr [])).asList

/-- The pop at src line 108, `qg.pop('questiongroups_questions', [])`:
the list the loop iterates and the question-group dict it leaves behind.
Note the key used is the PREFIXED name while `qg` is the raw dict. -/
def popQuestions (qg : Entity) : List Val × Entity :=
  let r := dpop qg "questiongroups_questions" (Val.arr [])
  (r.1.asList, r.2)

/-- The pop at src line 115, `question.pop('questions_answerOptions', [])`:
again the prefixed key applied to the raw dict. -/
def popAnswerOptions (question : Entity) : List Val × Entity :=
  let r := dpop question "questions_answerOptions" (Val.arr [])
  (r.1.asList, r.2)

/-- Body of the `for qg in question_groups` loop (src lines 102-133): the
flat records this question group appends to `answer_options_data`. -/
def recordsOfQG (form_id : Val) (qgv : Val) : List Entity :=
  let qg := qgv.asObj
  let qg_data := dinsert (prefix_dict_keys qg "questiongroups") "formid" form_id
  (popQuestions qg).1.flatMap (fun qv =>
    let question := qv.asObj
    let q_data := prefix_dict_keys question "questions"
    let combined_data := pyMerge qg_data q_data
    (popAnswerOptions question).1.map (fun aov =>
      pyMerge combined_data (prefix_dict_keys aov.asObj "answeroptions")))

/-- What one call of `GenesysProcessor.process_question_groups` does:
the `answer_options_data` list it builds, the storage writes it performs
(filename, content) and the final state of each question-group dict of the
input after the loop's `pop` mutations. -/
structure QGResult where
  records : List Entity
  writes : List (String × String)
  qgFinal : List Entity

/-- `GenesysProcessor.process_question_groups` (src lines 97-140). -/
def process_question_groups (form_entity : Entity) : QGResult :=
  let form_id := dget form_entity "id" Val.null
  let answer_options_data := (qgListOf form_entity).flatMap (recordsOfQG form_id)
  { records := answer_options_data
    writes :=
      if answer_options_data.isEmpty then []
      else [("questiongroups_" ++ pyStr form_id ++ ".jsonl",
             jsonlOf answer_options_data)]
    qgFinal := (qgListOf form_entity).map (fun qgv => (popQuestions qgv.asObj).2) }

/-! ## `GenesysProcessor.process_entities` (src lines 70-91) -/

/-- The summary dict built at src lines 77-85 for one published-version
entity (dict literal: fixed keys in order, values via `.get`, default
`None`). -/
def summarize (e : Entity) : Entity :=
  [("id", dget e "id" Val.null),
   ("name", dget e "name" Val.null),
   ("modifiedDate", dget e "modifiedDate" Val.null),
   ("published", dget e "published" Val.null),
   ("contextId", dget e "contextId" Val.null),
   ("weightMode", dget e "weightMode" Val.null),
   ("selfUri", dget e "selfUri" Val.null)]

/-- `root_entity.get('publishedVersions', {})` (src line 73). -/
def pvOf (root_entity : Val) : Val :=
  dget root_entity.asObj "publishedVersions" (Val.obj [])

/-- What one `root_entity` iteration of the src line 72 loop contributes:
the summaries appended to `processed_entities` and the storage writes done
by the `process_question_groups` calls.  A falsy `publishedVersions` hits
the `continue` at src line 75. -/
def rootContribution (root_entity : Val) : List Entity × List (String × String) :=
  if !pyTruthy (pvOf root_entity) then ([], [])
  else
    let pubEnts := ((dget (pvOf root_entity).asObj "entities" (Val.arr [])).asList).map
      Val.asObj
    (pubEnts.map summarize,
     pubEnts.flatMap (fun e => (process_question_groups e).writes))

/-- The src line 72 loop over `data.get('entities', [])`, for a given list
of root entities. -/
def processRoots (roots : List Val) : List Entity × List (String × String) :=
  (roots.flatMap (fun r => (rootContribution r).1),
   roots.flatMap (fun r => (rootContribution r).2))

/-- `GenesysProcessor.process_entities` (src lines 70-91): the returned
`processed_entities` list and the storage writes performed on the way. -/
def process_entities (data : Val) : List Entity × List (String × String) :=
  processRoots ((dget data.asObj "entities" (Val.arr [])).asList)

/-! ## `fetch_data`, `save_to_jsonl` and `main` (src lines 60-68, 142-144,
146-175) -/

/-- An exception that a modelled call can raise. -/
inductive PyErr where
  | apiRequestFailed (status : Nat) : PyErr
  | jsonDecodeFailed : PyErr
  | nameError (var : String) : PyErr

/-- The final HTTP response `requests.get` hands back: its status code and
its body as JSON when the body parses (`none` = unparsable). -/
structure Response where
  status : Nat
  body : Option Val

/-- `GenesysProcessor.fetch_data` (src lines 60-68): `raise_for_status`
raises for status 400..599, then `response.json()` raises when the body is
not JSON; both are logged and re-raised, so they reach the caller. -/
def fetch_data (resp : Response) : Except PyErr Val :=
  if 400 ≤ resp.status ∧ resp.status < 600 then
    .error (.apiRequestFailed resp.status)
  else
    match resp.body with
    | some v => .ok v
    | none => .error .jsonDecodeFailed

/-- `GenesysProcessor.save_to_jsonl` (src lines 142-144).  The generator
`json.dumps(entity) for item in entities` reads the undefined name
`entity`; `'\n'.join` evaluates it once per element, so a non-empty list
raises `NameError` before anything is saved, and an empty list joins to
`""`, which is saved. -/
def save_to_jsonl (entities : List Entity) (output_file : String) :
    Except PyErr (String × String) :=
  if entities.isEmpty then .ok (output_file, "")
  else .error (.nameError "entity")

/-- One run of `main` (src lines 146-175): how many HTTP fetches happened,
the storage writes in order, and the outcome (`processed_entities` or the
exception that aborted the run). -/
structure RunResult where
  fetches : Nat
  writes : List (String × String)
  outcome : Except PyErr (List Entity)

/-- The `main` pipeline (src lines 169-172) on the response the single
`requests.get` of `fetch_data` receives: fetch, process, save the summary
file `forms.jsonl`. -/
def mainRun (resp : Response) : RunResult :=
  match fetch_data resp with
  | .error e => ⟨1, [], .error e⟩
  | .ok raw_data =>
    let pe := process_entities raw_data
    match save_to_jsonl pe.1 "forms.jsonl" with
    | .error e => ⟨1, pe.2, .error e⟩
    | .ok w => ⟨1, pe.2 ++ [w], .ok pe.1⟩

/-- The server as a page sequence: the one GET that `main` performs asks
the fixed URL (`pageSize=100`, no page cursor), so it is answered with the
first page; no further page is ever requested. -/
def mainRunPaged (pages : List Response) : RunResult :=
  mainRun (pages.headD ⟨200, some (Val.obj [])⟩)

/-! ## Storage (`LocalStorageHandler.save`, src lines 22-27) -/

/-- The store as a map from file name to content; `save` opens the file
with mode `'w'`, so it overwrites whatever was there. -/
def applyWrite (σ : String → Option String) (w : String × String) :
    String → Option String :=
  fun n => if n = w.1 then some w.2 else σ n

/-- A run's writes applied in order to a store. -/
def applyWrites (ws : List (String × String)) (σ : String → Option String) :
    String → Option String :=
  ws.foldl applyWrite σ

/-! ## Concrete inputs -/

/-- The question group of the spec's end-to-end example:
`{id:"QG1", questions:[{id:"Q1", answerOptions:[{id:"AO1"},{id:"AO2"}]}]}`. -/
def exQG1 : Entity :=
  [("id", .str "QG1"),
   ("questions", .arr [ .obj [("id", .str "Q1"),
       ("answerOptions", .arr [ .obj [("id", .str "AO1")],
                                .obj [("id", .str "AO2")] ])]])]

/-- The spec's end-to-end example form: one question group, one question,
two answer options (N1 = N2 = 1, N3 = 2). -/
def exF1 : Entity :=
  [("id", .str "F1"), ("questionGroups", .arr [ .obj exQG1 ])]

/-- A form entity whose nested lists sit under the literal keys the code's
`pop` calls name (`questiongroups_questions`, `questions_answerOptions`):
the only shape on which the flattener produces records. -/
def exW : Entity :=
  [("id", .str "F1"), ("name", .str "Form One"),
   ("questionGroups", .arr [ .obj [
      ("id", .str "QG1"),
      ("questiongroups_questions", .arr [ .obj [
         ("id", .str "Q1"),
         ("questions_answerOptions", .arr [ .obj [("id", .str "AO1")] ])]])]])]

/-- The one flat record the flattener emits on `exW`. -/
def recW : Entity := ((process_question_groups exW).records).headD []

/-- A two-page server: page 1 has one entity, page 2 has an empty
`entities` list (so the first empty page is page K = 2). -/
def exPages : List Response :=
  [⟨200, some (Val.obj [("entities", Val.arr [ .obj [("id", .str "E1")] ])])⟩,
   ⟨200, some (Val.obj [("entities", Val.arr [])])⟩]

/-- A first page whose body is `{"entities": []}`. -/
def emptyPageResp : Response := ⟨200, some (Val.obj [("entities", Val.arr [])])⟩

/-- A non-2xx final response that `raise_for_status` does not raise on:
a 301 that was not redirected, carrying a JSON body. -/
def redirectResp : Response := ⟨301, some (Val.obj [("entities", Val.arr [])])⟩

/-- One record per leaf the loops actually visit: for each question group,
for each question read by the line 108 `pop`, the number of answer options
read by the line 115 `pop`. -/
def branchCount (form_entity : Entity) : Nat :=
  ((qgListOf form_entity).map (fun qgv =>
    ((popQuestions qgv.asObj).1.map (fun qv =>
      (popAnswerOptions qv.asObj).1.length)).sum)).sum

/-! ## Helper lemmas -/

theorem mem_keysOf_prefix_dict_keys {d : Entity} {p k : String} :
    k ∈ keysOf (prefix_dict_keys d p) ↔ ∃ k0 ∈ keysOf d, k = p ++ "_" ++ k0 := by
  simp only [keysOf, prefix_dict_keys, List.map_map, List.mem_map, Function.comp]
  constructor
  · rintro ⟨kv, hkv, rfl⟩
    exact ⟨kv.1, ⟨kv, hkv, rfl⟩, rfl⟩
  · rintro ⟨k0, ⟨kv, hkv, rfl⟩, rfl⟩
    exact ⟨kv, hkv, rfl⟩

theorem mem_keysOf_iff {d : Entity} {k : String} :
    k ∈ keysOf d ↔ ∃ kv ∈ d, kv.1 = k := by
  simp [keysOf, List.mem_map]

theorem keysOf_pyMerge_left (a b : Entity) :
    keysOf (a.map (fun kv =>
      match b.find? (fun kv2 => kv2.1 == kv.1) with
      | some kv2 => (kv.1, kv2.2)
      | none => kv)) = keysOf a := by
  simp only [keysOf, List.map_map]
  refine List.map_congr_left ?_
  intro kv _
  show Prod.fst (match b.find? (fun kv2 => kv2.1 == kv.1) with
    | some kv2 => (kv.1, kv2.2)
    | none => kv) = kv.1
  cases b.find? (fun kv2 => kv2.1 == kv.1) <;> rfl

theorem mem_keysOf_pyMerge {a b : Entity} {k : String} :
    k ∈ keysOf (pyMerge a b) ↔ k ∈ keysOf a ∨ k ∈ keysOf b := by
  have hsplit : keysOf (pyMerge a b)
      = keysOf a ++ keysOf (b.filter (fun kv2 => !(a.any (fun kv => kv.1 == kv2.1)))) := by
    simp only [pyMerge, keysOf, List.map_append]
    rw [show (a.map (fun kv =>
      match b.find? (fun kv2 => kv2.1 == kv.1) with
      | some kv2 => (kv.1, kv2.2)
      | none => kv)).map Prod.fst = keysOf a from keysOf_pyMerge_left a b]
    rfl
  rw [hsplit, List.mem_append]
  constructor
  · rintro (h | h)
    · exact Or.inl h
    · right
      rcases mem_keysOf_iff.mp h with ⟨kv, hkv, rfl⟩
      exact mem_keysOf_iff.mpr ⟨kv, (List.mem_filter.mp hkv).1, rfl⟩
  · rintro (h | h)
    · exact Or.inl h
    · by_cases ha : k ∈ keysOf a
      · exact Or.inl ha
      · right
        rcases mem_keysOf_iff.mp h with ⟨kv, hkv, rfl⟩
        refine mem_keysOf_iff.mpr ⟨kv, List.mem_filter.mpr ⟨hkv, ?_⟩, rfl⟩
        have hany : (a.any (fun kv0 => kv0.1 == kv.1)) = false := by
          rw [List.any_eq_false]
          intro kv0 hkv0
          simp only [beq_iff_eq]
          intro he
          exact ha (mem_keysOf_iff.mpr ⟨kv0, hkv0, he⟩)
        simp [hany]

theorem mem_keysOf_dinsert {d : Entity} {k k' : String} {v : Val} :
    k' ∈ keysOf (dinsert d k v) ↔ k' ∈ keysOf d ∨ k' = k := by
  unfold dinsert
  split
  case isTrue hany =>
    constructor
    · intro h
      rcases mem_keysOf_iff.mp h with ⟨kv2, hkv2, rfl⟩
      rcases List.mem_map.mp hkv2 with ⟨kv, hkv, rfl⟩
      by_cases he : kv.1 == k
      · simp [he]
      · simp only [he, Bool.false_eq_true, if_false]
        exact Or.inl (mem_keysOf_iff.mpr ⟨kv, hkv, rfl⟩)
    · rintro (h | rfl)
      · rcases mem_keysOf_iff.mp h with ⟨kv, hkv, rfl⟩
        refine mem_keysOf_iff.mpr ⟨_, List.mem_map.mpr ⟨kv, hkv, rfl⟩, ?_⟩
        by_cases he : kv.1 == k
        · simp only [he, if_true]
          exact (beq_iff_eq.mp he).symm
        · simp [he]
      · rcases List.any_eq_true.mp hany with ⟨kv, hkv, he⟩
        exact mem_keysOf_iff.mpr ⟨_, List.mem_map.mpr ⟨kv, hkv, rfl⟩, by simp [he]⟩
  case isFalse hany =>
    rw [show keysOf (d ++ [(k, v)]) = keysOf d ++ [k] from by simp [keysOf]]
    simp [List.mem_append]

theorem applyWrites_cons (w : String × String) (ws : List (String × String))
    (σ : String → Option String) :
    applyWrites (w :: ws) σ = applyWrites ws (applyWrite σ w) := rfl

theorem applyWrites_not_mem (ws : List (String × String))
    (σ : String → Option String) (n : String) (h : n ∉ ws.map Prod.fst) :
    applyWrites ws σ n = σ n := by
  induction ws generalizing σ with
  | nil => rfl
  | cons w ws ih =>
    rw [applyWrites_cons]
    simp only [List.map_cons, List.mem_cons, not_or] at h
    rw [ih _ h.2]
    simp [applyWrite, h.1]

theorem applyWrites_mem_indep (ws : List (String × String))
    (σ σ' : String → Option String) (n : String) (h : n ∈ ws.map Prod.fst) :
    applyWrites ws σ n = applyWrites ws σ' n := by
  induction ws generalizing σ σ' with
  | nil => simp at h
  | cons w ws ih =>
    rw [applyWrites_cons, applyWrites_cons]
    by_cases hm : n ∈ ws.map Prod.fst
    · exact ih _ _ hm
    · have hn : n = w.1 := by
        simp only [List.map_cons, List.mem_cons] at h
        tauto
      rw [applyWrites_not_mem _ _ _ hm, applyWrites_not_mem _ _ _ hm]
      simp [applyWrite, hn]

theorem records_length_eq_branchCount (form_entity : Entity) :
    (process_question_groups form_entity).records.length = branchCount form_entity := by
  simp only [process_question_groups, branchCount, List.length_flatMap]
  refine congrArg List.sum (List.map_congr_left ?_)
  intro qgv _
  simp only [Function.comp_apply, recordsOfQG, List.length_flatMap, List.map_map]
  refine congrArg List.sum (List.map_congr_left ?_)
  intro qv _
  simp [Function.comp]

/-! ## Claim theorems -/

/-- Claim C1 (code bug witnessed): on the end-to-end example of the spec
(1 question group, 1 question, 2 answer options) the flattener emits
0 records, not N1 x N2 x N3 = 2, and writes no file: the pop at src line
108 asks for the key `questiongroups_questions` in the raw dict, whose key
is `questions`, so the question list read is always empty. -/
theorem flattener_example_zero_records :
    (process_question_groups exF1).records = [] ∧
    (process_question_groups exF1).writes = [] ∧
    branchCount exF1 = 0 :=
  ⟨rfl, rfl, rfl⟩

/-- Claim C8 (code bug witnessed): after flattening the example form, the
question-group dict still contains its nested `questions` list — the pop
named the prefixed key, matched nothing, removed nothing and read the
default empty list. -/
theorem pop_key_mismatch_leaves_input :
    (process_question_groups exF1).qgFinal = [exQG1] ∧
    "questions" ∈ keysOf exQG1 ∧
    popQuestions exQG1 = ([], exQG1) :=
  ⟨rfl, by decide, rfl⟩

/-- Claim C2 (counterexample): on a page sequence whose first empty
`entities` list is at page K = 2, the run performs 1 fetch call, not 2. -/
theorem pagination_claim_cex :
    (mainRunPaged exPages).fetches = 1 ∧ (1 : Nat) ≠ 2 :=
  ⟨rfl, by decide⟩

/-- Claim C2 (amended): the export performs exactly one fetch call
regardless of the page sequence — `fetch_data` issues a single GET of the
fixed URL and `main` never loops; termination never consults later
pages. -/
theorem main_single_fetch (pages : List Response) :
    (mainRunPaged pages).fetches = 1 := by
  unfold mainRunPaged mainRun
  cases hf : fetch_data (pages.headD ⟨200, some (Val.obj [])⟩) with
  | error e => simp [hf]
  | ok v =>
    cases hs : save_to_jsonl (process_entities v).1 "forms.jsonl" with
    | error e => simp [hf, hs]
    | ok w => simp [hf, hs]

/-- Claim C7 (counterexample): the flattening operation is not free of
storage writes — on a form whose nested lists sit under the literal keys
the pops name, it produces a record and performs a write. -/
theorem flatten_write_cex :
    (process_question_groups exW).writes ≠ [] := by
  decide

/-- Claim C7 (amended): flattening performs a storage write exactly when
it produces at least one flat record (its output and its write are
functions of the root entity alone, but it is not write-free). -/
theorem flatten_writes_iff_records (form_entity : Entity) :
    (process_question_groups form_entity).writes = []
      ↔ (process_question_groups form_entity).records = [] := by
  simp only [process_question_groups]
  cases h : ((qgListOf form_entity).flatMap
      (recordsOfQG (dget form_entity "id" Val.null))).isEmpty with
  | false =>
    simp only [h, Bool.false_eq_true, if_false]
    constructor
    · intro hc
      exact absurd hc (by simp)
    · intro hl
      rw [hl] at h
      simp at h
  | true =>
    simp only [h, if_true]
    simp [List.isEmpty_iff.mp h]

/-- Claim C5 (counterexample): a first page of `{"entities": []}` still
writes one output file — `main` unconditionally saves the summary file
`forms.jsonl`, here with empty content. -/
theorem empty_first_page_writes_cex :
    (mainRun emptyPageResp).writes = [("forms.jsonl", "")] ∧
    (mainRun emptyPageResp).writes ≠ [] :=
  ⟨rfl, by decide⟩

/-- Claim C5 (amended): a run whose first page has an empty (or absent)
`entities` list produces zero records and zero question-group files, but
still writes exactly one file, `forms.jsonl`, with empty content. -/
theorem empty_first_page_behavior (st : Nat) (b : Val)
    (h1 : st < 400)
    (h2 : (dget b.asObj "entities" (Val.arr [])).asList = []) :
    (mainRun ⟨st, some b⟩).outcome = .ok [] ∧
    (mainRun ⟨st, some b⟩).writes = [("forms.jsonl", "")] := by
  have hf : fetch_data ⟨st, some b⟩ = .ok b := by
    simp only [fetch_data]
    rw [if_neg (by omega)]
  have hp : process_entities b = ([], []) := by
    simp [process_entities, processRoots, h2]
  constructor <;> simp [mainRun, hf, hp, save_to_jsonl]

/-- Witness for the amended claim C5 at the concrete first page
`{"entities": []}` with status 200. -/
theorem empty_first_page_behavior_witness :
    (mainRun ⟨200, some (Val.obj [("entities", Val.arr [])])⟩).outcome = .ok [] ∧
    (mainRun ⟨200, some (Val.obj [("entities", Val.arr [])])⟩).writes
      = [("forms.jsonl", "")] :=
  empty_first_page_behavior 200 (Val.obj [("entities", Val.arr [])])
    (by decide) rfl

/-- Claim C6 (counterexample): a non-2xx response need not raise — on a
301 final response with a JSON body, `raise_for_status` does not raise
(it raises only for 4xx/5xx) and `fetch_data` returns the parsed body. -/
theorem non2xx_ok_result_cex :
    fetch_data redirectResp = .ok (Val.obj [("entities", Val.arr [])]) ∧
    ¬(200 ≤ redirectResp.status ∧ redirectResp.status < 300) :=
  ⟨rfl, by decide⟩

/-- Claim C6 (amended): every 4xx/5xx response makes `fetch_data` raise an
error that propagates and aborts the run: the run performs no storage
write, returns no value, and retries nothing (exactly one fetch). -/
theorem http_error_aborts_run (resp : Response)
    (h4 : 400 ≤ resp.status) (h6 : resp.status < 600) :
    fetch_data resp = .error (.apiRequestFailed resp.status) ∧
    (mainRun resp).outcome = .error (.apiRequestFailed resp.status) ∧
    (mainRun resp).writes = [] ∧
    (mainRun resp).fetches = 1 := by
  have hf : fetch_data resp = .error (.apiRequestFailed resp.status) := by
    simp [fetch_data, h4, h6]
  refine ⟨hf, ?_, ?_, ?_⟩ <;> simp [mainRun, hf]

/-- Witness for the amended claim C6 at a concrete 404 response. -/
theorem http_error_aborts_run_witness :
    fetch_data ⟨404, none⟩ = .error (.apiRequestFailed 404) ∧
    (mainRun ⟨404, none⟩).outcome = .error (.apiRequestFailed 404) ∧
    (mainRun ⟨404, none⟩).writes = [] ∧
    (mainRun ⟨404, none⟩).fetches = 1 :=
  http_error_aborts_run ⟨404, none⟩ (by decide) (by decide)

/-- Claim C4 (confirmed): per root form entity, exactly one save happens
when flattening yields at least one record and none otherwise; the one
write targets `questiongroups_{formId}.jsonl`; and the record count is the
sum over branches of leaves actually read, so an empty child list at any
stage contributes no record for that branch. -/
theorem save_once_iff_records (form_entity : Entity) :
    (process_question_groups form_entity).writes.length
      = (if (process_question_groups form_entity).records.isEmpty
         then 0 else 1) ∧
    (process_question_groups form_entity).writes
      = (if (process_question_groups form_entity).records.isEmpty then []
         else [("questiongroups_" ++ pyStr (dget form_entity "id" Val.null)
                  ++ ".jsonl",
                jsonlOf (process_question_groups form_entity).records)]) ∧
    (process_question_groups form_entity).records.length
      = branchCount form_entity := by
  refine ⟨?_, rfl, records_length_eq_branchCount form_entity⟩
  simp only [process_question_groups]
  split <;> simp_all

/-- Claim C9 (confirmed): a run is a deterministic function of the fetched
data, each save overwrites its target name, and re-applying the same
writes leaves the store unchanged — so a second identical run writes the
same names with identical content and the store ends in the same state. -/
theorem export_idempotent_overwrite (resp : Response)
    (σ : String → Option String) (n : String) :
    applyWrites (mainRun resp).writes (applyWrites (mainRun resp).writes σ) n
      = applyWrites (mainRun resp).writes σ n := by
  by_cases h : n ∈ (mainRun resp).writes.map Prod.fst
  · exact applyWrites_mem_indep _ _ _ _ h
  · exact applyWrites_not_mem _ _ _ h

theorem processRoots_cons (r : Val) (l : List Val) :
    processRoots (r :: l)
      = ((rootContribution r).1 ++ (processRoots l).1,
         (rootContribution r).2 ++ (processRoots l).2) := by
  simp [processRoots]

theorem rootContribution_falsy {r : Val} (h : ¬pyTruthy (pvOf r)) :
    rootContribution r = ([], []) := by
  simp [rootContribution, h]

/-- Claim C10 (confirmed): root entities whose `publishedVersions` is
absent, empty or otherwise falsy are skipped entirely — dropping them
changes nothing, and a list made only of them contributes no summary and
no write; summaries and flattening come only from the kept roots, whose
entities are read under `publishedVersions.entities`. -/
theorem falsy_published_versions_skipped (roots : List Val) :
    processRoots roots
      = processRoots (roots.filter (fun r => pyTruthy (pvOf r))) ∧
    processRoots (roots.filter (fun r => !pyTruthy (pvOf r))) = ([], []) := by
  constructor
  · induction roots with
    | nil => rfl
    | cons r rs ih =>
      by_cases h : pyTruthy (pvOf r)
      · rw [processRoots_cons, List.filter_cons_of_pos (by simpa using h),
          processRoots_cons, ih]
      · rw [processRoots_cons, rootContribution_falsy h,
          List.filter_cons_of_neg (by simpa using h), ih]
        simp
  · induction roots with
    | nil => rfl
    | cons r rs ih =>
      by_cases h : pyTruthy (pvOf r)
      · rw [List.filter_cons_of_neg (by simpa using h)]
        exact ih
      · rw [List.filter_cons_of_pos (by simpa using h), processRoots_cons,
          rootContribution_falsy h, ih]
        simp

/-- Claim C3 (counterexample): a flat record actually emitted by the
flattener (on `exW`) omits the unprefixed root field `name` and carries a
retained nested-collection key, `questiongroups_questiongroups_questions`
— so its key set is not the claimed union and nested-collection keys do
appear. -/
theorem record_keys_cex :
    (process_question_groups exW).records = [recW] ∧
    "name" ∈ keysOf exW ∧
    "name" ∉ keysOf recW ∧
    "questiongroups_questiongroups_questions" ∈ keysOf recW ∧
    "questions_questions_answerOptions" ∈ keysOf recW :=
  ⟨rfl, by decide, by decide, by decide, by decide⟩

/-- Two strings whose character data are incomparable (neither starts the
other) stay different under any suffixes: the stage name stems disagree
before either ends. -/
theorem append_ne_append_of_stems {l1 l2 : String}
    (h1 : ¬(l1.data <+: l2.data)) (h2 : ¬(l2.data <+: l1.data))
    (k0 k1 : String) : l1 ++ k0 ≠ l2 ++ k1 := by
  intro h
  have hd := congrArg String.data h
  rw [String.data_append, String.data_append] at hd
  have p1 : l1.data <+: l2.data ++ k1.data := hd ▸ List.prefix_append l1.data k0.data
  rcases List.prefix_or_prefix_of_prefix p1 (List.prefix_append l2.data k1.data) with
    hp | hp
  · exact h1 hp
  · exact h2 hp

/-- A string extending a stem differs from any string the stem does not
start: used for `formid` against the stage names. -/
theorem append_ne_of_stem {l1 s : String}
    (h : ¬(l1.data <+: s.data)) (k0 : String) : l1 ++ k0 ≠ s := by
  intro he
  apply h
  rw [← he, String.data_append]
  exact List.prefix_append _ _

/-- Claim C3 (amended): every emitted flat record has as its key set
exactly the `questiongroups_`-prefixed keys of its question group (all of
them, including any nested-collection key the pop failed to remove), the
foreign key `formid`, the `questions_`-prefixed keys of its question and
the `answeroptions_`-prefixed keys of its answer option; no key collision
occurs across stages, because the three stage prefixes and the key
`formid` are pairwise incompatible whatever the field names; the root
form contributes no unprefixed field. -/
theorem record_keys_shape (form_entity : Entity) (r : Entity)
    (hr : r ∈ (process_question_groups form_entity).records) :
    (∃ qgv ∈ qgListOf form_entity,
      ∃ qv ∈ (popQuestions qgv.asObj).1,
        ∃ aov ∈ (popAnswerOptions qv.asObj).1,
          ∀ k, k ∈ keysOf r ↔
            ((∃ k0 ∈ keysOf qgv.asObj, k = "questiongroups" ++ "_" ++ k0) ∨
             k = "formid" ∨
             (∃ k0 ∈ keysOf qv.asObj, k = "questions" ++ "_" ++ k0) ∨
             (∃ k0 ∈ keysOf aov.asObj, k = "answeroptions" ++ "_" ++ k0))) ∧
    (∀ k0 k1 : String,
      "questiongroups" ++ "_" ++ k0 ≠ "questions" ++ "_" ++ k1 ∧
      "questiongroups" ++ "_" ++ k0 ≠ "answeroptions" ++ "_" ++ k1 ∧
      "questions" ++ "_" ++ k0 ≠ "answeroptions" ++ "_" ++ k1 ∧
      "questiongroups" ++ "_" ++ k0 ≠ "formid" ∧
      "questions" ++ "_" ++ k0 ≠ "formid" ∧
      "answeroptions" ++ "_" ++ k0 ≠ "formid") := by
  constructor
  · simp only [process_question_groups, List.mem_flatMap] at hr
    obtain ⟨qgv, hqg, hr⟩ := hr
    simp only [recordsOfQG, List.mem_flatMap] at hr
    obtain ⟨qv, hq, hr⟩ := hr
    simp only [List.mem_map] at hr
    obtain ⟨aov, hao, rfl⟩ := hr
    refine ⟨qgv, hqg, qv, hq, aov, hao, ?_⟩
    intro k
    rw [mem_keysOf_pyMerge, mem_keysOf_pyMerge, mem_keysOf_dinsert,
      mem_keysOf_prefix_dict_keys, mem_keysOf_prefix_dict_keys,
      mem_keysOf_prefix_dict_keys, or_assoc, or_assoc]
  · intro k0 k1
    exact ⟨append_ne_append_of_stems (by decide) (by decide) k0 k1,
           append_ne_append_of_stems (by decide) (by decide) k0 k1,
           append_ne_append_of_stems (by decide) (by decide) k0 k1,
           append_ne_of_stem (by decide) k0,
           append_ne_of_stem (by decide) k0,
           append_ne_of_stem (by decide) k0⟩

/-- Witness for the amended claim C3 at the concrete record `recW` emitted
on the concrete form `exW`. -/
theorem record_keys_shape_witness :
    (∃ qgv ∈ qgListOf exW,
      ∃ qv ∈ (popQuestions qgv.asObj).1,
        ∃ aov ∈ (popAnswerOptions qv.asObj).1,
          ∀ k, k ∈ keysOf recW ↔
            ((∃ k0 ∈ keysOf qgv.asObj, k = "questiongroups" ++ "_" ++ k0) ∨
             k = "formid" ∨
             (∃ k0 ∈ keysOf qv.asObj, k = "questions" ++ "_" ++ k0) ∨
             (∃ k0 ∈ keysOf aov.asObj, k = "answeroptions" ++ "_" ++ k0))) ∧
    (∀ k0 k1 : String,
      "questiongroups" ++ "_" ++ k0 ≠ "questions" ++ "_" ++ k1 ∧
      "questiongroups" ++ "_" ++ k0 ≠ "answeroptions" ++ "_" ++ k1 ∧
      "questions" ++ "_" ++ k0 ≠ "answeroptions" ++ "_" ++ k1 ∧
      "questiongroups" ++ "_" ++ k0 ≠ "formid" ∧
      "questions" ++ "_" ++ k0 ≠ "formid" ∧
      "answeroptions" ++ "_" ++ k0 ≠ "formid") :=
  record_keys_shape exW recW (List.mem_singleton.mpr rfl)
